import Mathlib

/-!
Verification development for the client-side orchestration layer of the
digital-forensics-suite frontend.  The definitions below are a shallow
embedding of the TypeScript source:

* `jsNumber` models the JavaScript `Number(string)` conversion used in
  `SearchContent.tsx` (`Number(mediaId)`, `Number(lat)`, ...), restricted to
  decimal literals (the only shapes the UI produces);
* `handleSearch` embeds `handleSearch` from
  `src/frontend/src/components/search/SearchContent.tsx`; backend responses
  are given by an explicit `Backend` record, and every issued network request
  is logged so that claims about "no network call" are expressible;
* `fetchApiClassify`, `uploadMediaClassify`, `searchByImageClassify` embed the
  HTTP-status handling of `fetchApi`, `api.uploadMedia` and
  `api.searchByImage` from the api module;
* `initKeycloak`, `setupTokenRefresh`, `logout`, `refreshTickFail` and the
  `AuthCtx` definitions embed the session-lifecycle code of
  `src/frontend/src/lib/keycloak.ts` and `AuthContext.tsx` as explicit state
  transitions (JavaScript is single threaded, so each call runs atomically up
  to its first await).
-/

/-- JavaScript numbers as produced by `Number(...)` on UI input strings:
either NaN or a finite value, modelled as a rational. -/
inductive JsNum where
  | nan : JsNum
  | num : ℚ → JsNum
deriving DecidableEq

/-- Accumulate a decimal digit string; `none` on any non-digit character.
Mirrors the digit scanning inside JavaScript number conversion. -/
def digitsVal : List Char → Nat → Option Nat
  | [], acc => some acc
  | c :: cs, acc =>
      if c.isDigit then digitsVal cs (acc * 10 + (c.toNat - 48)) else none

/-- Parse an unsigned decimal literal (`"10"`, `"0.7"`, `"5."`, `".5"`);
`none` when the characters do not form such a literal. -/
def parseUnsigned (cs : List Char) : Option ℚ :=
  match cs.span (fun c => c ≠ '.') with
  | (intPart, []) => (digitsVal intPart 0).map (fun n => (n : ℚ))
  | (intPart, _ :: fracPart) =>
      if intPart.isEmpty ∧ fracPart.isEmpty then none
      else
        match digitsVal intPart 0, digitsVal fracPart 0 with
        | some i, some f =>
            some ((i : ℚ) + (f : ℚ) / ((10 : ℚ) ^ fracPart.length))
        | _, _ => none

/-- Parse an optionally signed decimal literal; a bare sign is not a number. -/
def parseSigned (cs : List Char) : Option ℚ :=
  match cs with
  | [] => none
  | '+' :: rest => if rest.isEmpty then none else parseUnsigned rest
  | '-' :: rest =>
      if rest.isEmpty then none else (parseUnsigned rest).map (fun q => -q)
  | _ => parseUnsigned cs

/-- JavaScript `String.prototype.trim`: drop whitespace from both ends.
Defined structurally on the character list so it evaluates by reduction. -/
def jsTrim (s : String) : String :=
  ⟨((s.data.dropWhile Char.isWhitespace).reverse.dropWhile
      Char.isWhitespace).reverse⟩

/-- JavaScript `Number(s)` on the strings the search form produces: trim
whitespace, the empty string is `0`, a decimal literal is its value, anything
else is NaN. -/
def jsNumber (s : String) : JsNum :=
  let t := jsTrim s
  if t = "" then JsNum.num 0
  else
    match parseSigned t.data with
    | some q => JsNum.num q
    | none => JsNum.nan

/-- A case record, from the `Case` interface of the api module (fields not
used by the search flow are omitted). -/
structure Case where
  id : Int
  name : String
  description : Option String := none
deriving DecidableEq

/-- A person record, from the `Person` interface of the api module. -/
structure Person where
  id : Int
  name : String
  aliases : Option String := none
deriving DecidableEq

/-- A media candidate as returned by the similarity, signature, location and
upload search endpoints (`distance` from similarity search, `match_score`
from signature search). -/
structure MediaHit where
  id : Int
  distance : Option ℚ := none
  matchScore : Option ℚ := none
deriving DecidableEq

/-- Errors thrown by the api module: the three `fetchApi` classifications,
the two catch-all errors of the multipart endpoints, and network-level
unreachability. -/
inductive ApiError where
  | unauthorized : ApiError
  | forbidden : ApiError
  | requestFailed : Nat → ApiError
  | uploadFailed : Nat → ApiError
  | searchFailed : ApiError
  | unreachable : ApiError
deriving DecidableEq

/-- The `res.ok` test of the fetch API: status in the 2xx range. -/
def statusOk (status : Nat) : Bool :=
  200 ≤ status && status ≤ 299

/-- Status handling of `fetchApi` in the api module: 2xx succeeds (`none`),
401 throws unauthorized, 403 throws forbidden, any other status throws a
request-failed error carrying the status. -/
def fetchApiClassify (status : Nat) : Option ApiError :=
  if statusOk status then none
  else if status = 401 then some ApiError.unauthorized
  else if status = 403 then some ApiError.forbidden
  else some (ApiError.requestFailed status)

/-- Status handling of `api.uploadMedia`: any non-ok status throws the single
catch-all error `Upload failed: status`. -/
def uploadMediaClassify (status : Nat) : Option ApiError :=
  if statusOk status then none else some (ApiError.uploadFailed status)

/-- Status handling of `api.searchByImage`: any non-ok status throws the
status-less catch-all error `Search failed`. -/
def searchByImageClassify (status : Nat) : Option ApiError :=
  if statusOk status then none else some ApiError.searchFailed

/-- A network request issued by the search flow, with the query parameters
the api module puts in the URL. -/
inductive Request where
  | autocompleteCases : String → Request
  | autocompletePersons : String → Request
  | searchSimilar : JsNum → JsNum → Request
  | searchSignature : JsNum → String → JsNum → Request
  | searchLocation : JsNum → JsNum → JsNum → Request
  | searchUpload : Request
deriving DecidableEq

/-- The search mode selected in the UI (`SearchType` in SearchContent.tsx). -/
inductive SearchType where
  | text : SearchType
  | similar : SearchType
  | signature : SearchType
  | location : SearchType
  | upload : SearchType
deriving DecidableEq

/-- An item of the rendered result list: case and person autocomplete hits are
spread with a `resultType` tag (`{...c, resultType: 'case'}`), media hits from
the other branches are passed through untagged. -/
inductive ResultItem where
  | taggedCase : Case → ResultItem
  | taggedPerson : Person → ResultItem
  | mediaItem : MediaHit → ResultItem
deriving DecidableEq

/-- The backend's responses, one function per endpoint family; `Except`
models a rejected promise from the transport. -/
structure Backend where
  cases : String → Except ApiError (List Case)
  persons : String → Except ApiError (List Person)
  media : Request → Except ApiError (List MediaHit)

/-- The form state read by `handleSearch` (the `useState` fields of
SearchContent.tsx); `radius` defaults to `"10"` as in the source. -/
structure SearchForm where
  searchType : SearchType
  textQuery : String := ""
  mediaId : String := ""
  lat : String := ""
  lon : String := ""
  radius : String := "10"
  file : Option String := none

/-- Embedding of `handleSearch` from SearchContent.tsx.  Returns the result
list stored by `setResults` together with the list of network requests that
were issued.  The text branch fans out through `Promise.all`, which rejects
as soon as either branch rejects; the surrounding try/catch then stores `[]`.
Defaulted parameters of the api module are inlined: `searchSimilar` sends
`threshold=10`, `searchBySignature` sends `match_type=combined` and
`threshold=0.7`, exactly as their declarations default them. -/
def handleSearch (b : Backend) (f : SearchForm) : List ResultItem × List Request :=
  match f.searchType with
  | SearchType.text =>
      if jsTrim f.textQuery = "" then ([], [])
      else
        let reqs := [Request.autocompleteCases f.textQuery,
                     Request.autocompletePersons f.textQuery]
        match b.cases f.textQuery, b.persons f.textQuery with
        | Except.ok cs, Except.ok ps =>
            (cs.map ResultItem.taggedCase ++ ps.map ResultItem.taggedPerson, reqs)
        | _, _ => ([], reqs)
  | SearchType.similar =>
      let req := Request.searchSimilar (jsNumber f.mediaId) (JsNum.num 10)
      match b.media req with
      | Except.ok ms => (ms.map ResultItem.mediaItem, [req])
      | Except.error _ => ([], [req])
  | SearchType.signature =>
      let req := Request.searchSignature (jsNumber f.mediaId) "combined"
        (JsNum.num (7 / 10))
      match b.media req with
      | Except.ok ms => (ms.map ResultItem.mediaItem, [req])
      | Except.error _ => ([], [req])
  | SearchType.location =>
      let req := Request.searchLocation (jsNumber f.lat) (jsNumber f.lon)
        (jsNumber f.radius)
      match b.media req with
      | Except.ok ms => (ms.map ResultItem.mediaItem, [req])
      | Except.error _ => ([], [req])
  | SearchType.upload =>
      match f.file with
      | none => ([], [])
      | some _ =>
          match b.media Request.searchUpload with
          | Except.ok ms => (ms.map ResultItem.mediaItem, [Request.searchUpload])
          | Except.error _ => ([], [Request.searchUpload])

/-- The component state around `handleSearch`: the form plus the `results`
and `searching` fields that `setResults`/`setSearching` update. -/
structure ComponentState where
  form : SearchForm
  results : Option (List ResultItem) := none
  searching : Bool := false

/-- One full run of `handleSearch` as a component-state transition: it stores
the computed list in `results` and clears `searching`, leaving the form
untouched. -/
def doSearch (b : Backend) (c : ComponentState) : ComponentState :=
  { c with results := some (handleSearch b c.form).1, searching := false }

/-- Observable session state around the keycloak singleton as used by
`src/frontend/src/lib/keycloak.ts`: whether the adapter currently reports an
authenticated session, whether the periodic refresh interval from
`setupTokenRefresh` is installed (its `setInterval` id is discarded by the
source, so no field can hold it), how many times the `onAuthLogout` callback
has fired, and how many refresh-failure warnings have been logged. -/
structure SessionState where
  authenticated : Bool
  refreshIntervalInstalled : Bool := false
  logoutCallbackCount : Nat := 0
  warningCount : Nat := 0
deriving DecidableEq

/-- Embedding of `setupTokenRefresh`: installs the 30s refresh interval; the
interval id is not stored anywhere. -/
def setupTokenRefresh (s : SessionState) : SessionState :=
  { s with refreshIntervalInstalled := true }

/-- One firing of the refresh interval whose `updateToken(60)` fails: the
catch handler only logs `Token refresh failed, user may need to re-login`;
nothing else in the session changes. -/
def refreshTickFail (s : SessionState) : SessionState :=
  { s with warningCount := s.warningCount + 1 }

/-- One firing of the refresh interval whose `updateToken(60)` succeeds: the
token is renewed in place; the observable flags are unchanged. -/
def refreshTickSuccess (s : SessionState) : SessionState :=
  s

/-- Embedding of `logout` from keycloak.ts: its body is exactly
`keycloak.logout({redirectUri})`, which ends the adapter session; it performs
no `clearInterval`, so the refresh interval field is untouched. -/
def logout (s : SessionState) : SessionState :=
  { s with authenticated := false }

/-- Embedding of `isAuthenticated` from keycloak.ts:
`keycloak.authenticated ?? false`. -/
def isAuthenticated (s : SessionState) : Bool :=
  s.authenticated

/-- A refresh tick can fire exactly when the interval from
`setupTokenRefresh` is installed (it is periodic and never cleared by any
code under src). -/
def canTick (s : SessionState) : Bool :=
  s.refreshIntervalInstalled

/-- The React-side state held by `AuthProvider` in AuthContext.tsx. -/
structure AuthCtxState where
  authenticated : Bool
  hasUser : Bool
deriving DecidableEq

/-- Embedding of the `onTokenExpired` handler installed by `AuthProvider`:
it runs `updateToken(30)`; on failure the catch sets the React authenticated
flag to false and clears the user; on success nothing changes. -/
def onTokenExpiredHandler (refreshOk : Bool) (c : AuthCtxState) : AuthCtxState :=
  if refreshOk then c else { authenticated := false, hasUser := false }

/-- The module-level state of keycloak.ts around `initKeycloak`: the
`initialized` flag, whether `initPromise` is non-null, the adapter's
`keycloak.authenticated` field, and a count of `keycloak.init` round trips
(for the at-most-one-in-flight guarantee). -/
structure InitModuleState where
  initialized : Bool := false
  initPromiseSet : Bool := false
  kcAuthenticated : Option Bool := none
  roundTrips : Nat := 0
deriving DecidableEq

/-- What a call to `initKeycloak` hands back to its caller: either an
immediately known boolean (`keycloak.authenticated ?? false`) or the shared
`initPromise`, whose eventual value all of its holders observe alike. -/
inductive InitReturn where
  | immediate : Bool → InitReturn
  | sharedPromise : InitReturn
deriving DecidableEq

/-- The fresh module state at load time of keycloak.ts. -/
def freshInitState : InitModuleState :=
  {}

/-- Embedding of `initKeycloak`.  JavaScript is single threaded and the
function performs no await before `initPromise` is assigned, so each call is
one atomic step: if `initialized` it returns the adapter flag; else if
`initPromise` is set it returns that same promise; else it starts the one
`keycloak.init` round trip and publishes `initPromise`. -/
def initKeycloak (s : InitModuleState) : InitReturn × InitModuleState :=
  if s.initialized then
    (InitReturn.immediate (s.kcAuthenticated.getD false), s)
  else if s.initPromiseSet then
    (InitReturn.sharedPromise, s)
  else
    (InitReturn.sharedPromise,
      { s with initPromiseSet := true, roundTrips := s.roundTrips + 1 })

/-- Resolution of the in-flight initialization with authentication outcome
`a`: the async body sets `initialized := true` and the adapter records the
outcome (the error path of the body likewise sets `initialized := true` and
resolves false, which is the `a = false` instance). -/
def resolveInit (a : Bool) (s : InitModuleState) : InitModuleState :=
  { s with initialized := true, kcAuthenticated := some a }

/-- Issue `n` consecutive `initKeycloak` calls (none of which awaits the
promise in between), collecting each call's return value. -/
def runInitCalls : Nat → InitModuleState → List InitReturn × InitModuleState
  | 0, s => ([], s)
  | n + 1, s =>
      let (r, s1) := initKeycloak s
      let (rs, s2) := runInitCalls n s1
      (r :: rs, s2)

/-- A person record used in concrete scenarios. -/
def personAlice : Person :=
  { id := 2, name := "Alice" }

/-- A case and a person that share the same display name, to exhibit that an
identical name in both spaces of provenance appears twice. -/
def caseX : Case :=
  { id := 1, name := "X" }

/-- The person half of the duplicated-name scenario. -/
def personX : Person :=
  { id := 2, name := "X" }

/-- A backend whose case-autocomplete branch rejects with a 500 while the
person-autocomplete branch succeeds with one hit. -/
def backendCaseFail : Backend :=
  { cases := fun _ => Except.error (ApiError.requestFailed 500),
    persons := fun _ => Except.ok [personAlice],
    media := fun _ => Except.ok [] }

/-- A backend on which every call succeeds with an empty list. -/
def backendEmpty : Backend :=
  { cases := fun _ => Except.ok [],
    persons := fun _ => Except.ok [],
    media := fun _ => Except.ok [] }

/-- A backend whose two autocomplete branches return the duplicated name. -/
def backendDup : Backend :=
  { cases := fun _ => Except.ok [caseX],
    persons := fun _ => Except.ok [personX],
    media := fun _ => Except.ok [] }

/-- A text search form with a non-empty term. -/
def formTextAlice : SearchForm :=
  { searchType := SearchType.text, textQuery := "alice" }

/-- A text search form whose term is whitespace only. -/
def formTextBlank : SearchForm :=
  { searchType := SearchType.text, textQuery := "   " }

/-- A location search form whose radius field holds a non-numeric string. -/
def formLocationBadRadius : SearchForm :=
  { searchType := SearchType.location, lat := "1", lon := "2", radius := "abc" }

/-- A similarity search form for media id 42. -/
def formSimilar42 : SearchForm :=
  { searchType := SearchType.similar, mediaId := "42" }

/-- A signature search form for media id 7. -/
def formSignature7 : SearchForm :=
  { searchType := SearchType.signature, mediaId := "7" }

/-- A session that is authenticated and has the refresh interval running. -/
def sessionLive : SessionState :=
  { authenticated := true, refreshIntervalInstalled := true }

/-- A freshly authenticated session before `setupTokenRefresh`. -/
def sessionFresh : SessionState :=
  { authenticated := true }

/-- C3 counterexample: in a live authenticated session, a failed periodic
refresh leaves `isAuthenticated()` true and fires the logout callback zero
times, contradicting the claim that authentication becomes false and the
callback fires exactly once. -/
theorem c3_counterexample :
    isAuthenticated (refreshTickFail sessionLive) = true ∧
    (refreshTickFail sessionLive).logoutCallbackCount = 0 :=
  ⟨rfl, rfl⟩

/-- C3 (amended): a failed periodic refresh only logs a warning — the
authentication state and the logout-callback count are unchanged; only the
separate `onTokenExpired` handler of `AuthProvider`, when its own
`updateToken` fails, drops the React-side authenticated flag, and it too
fires no logout callback. -/
theorem c3_refresh_failure_only_warns (s : SessionState) (c : AuthCtxState) :
    isAuthenticated (refreshTickFail s) = isAuthenticated s ∧
    (refreshTickFail s).logoutCallbackCount = s.logoutCallbackCount ∧
    (refreshTickFail s).warningCount = s.warningCount + 1 ∧
    (onTokenExpiredHandler false c).authenticated = false :=
  ⟨rfl, rfl, rfl, rfl⟩

/-- C4 counterexample: after `setupTokenRefresh` and then `logout`, the
refresh interval is still installed, so a refresh tick can still fire —
contradicting the claim that logout invalidates the timer. -/
theorem c4_counterexample :
    canTick (logout (setupTokenRefresh sessionFresh)) = true :=
  rfl

/-- C4 (amended): `logout` never touches the refresh interval — the
`setInterval` id is discarded by `setupTokenRefresh` and `logout` only calls
the adapter's logout, so after logout the periodic refresh tick remains
enabled from any session state. -/
theorem c4_logout_leaves_interval (s : SessionState) :
    (logout s).refreshIntervalInstalled = s.refreshIntervalInstalled ∧
    canTick (logout (setupTokenRefresh s)) = true :=
  ⟨rfl, rfl⟩

/-- C8: executing the same descriptor twice sequentially against an unchanged
backend yields equal ResultSets — the second `doSearch` reads only the form
and the backend, not the previously stored results. -/
theorem c8_execute_idempotent (b : Backend) (c : ComponentState) :
    (doSearch b (doSearch b c)).results = (doSearch b c).results :=
  rfl

/-- C5 counterexample: a 401 response to the multipart upload endpoint is not
classified as unauthorized — `api.uploadMedia` throws its catch-all
upload-failed error — and a 403 response to `api.searchByImage` is not
classified as forbidden, so the three-kind classification does not cover
every outbound request that completes with a response. -/
theorem c5_counterexample :
    uploadMediaClassify 401 = some (ApiError.uploadFailed 401) ∧
    uploadMediaClassify 401 ≠ some ApiError.unauthorized ∧
    searchByImageClassify 403 = some ApiError.searchFailed ∧
    searchByImageClassify 403 ≠ some ApiError.forbidden := by
  refine ⟨rfl, by decide, rfl, by decide⟩

/-- C5 (amended): for requests routed through `fetchApi`, the failure
classification is exactly 401 → unauthorized, 403 → forbidden, and any other
non-2xx status → request-failed carrying the status, while every 2xx status
succeeds; but the two multipart endpoints bypass `fetchApi`: on every non-ok
status `uploadMedia` throws a single upload-failed error carrying the status
and `searchByImage` throws a status-less search-failed error, regardless of
401/403.  No path retries. -/
theorem c5_status_classification (s t : Nat)
    (hs : statusOk s = false) (ht : statusOk t = true) :
    fetchApiClassify s =
      (if s = 401 then some ApiError.unauthorized
       else if s = 403 then some ApiError.forbidden
       else some (ApiError.requestFailed s)) ∧
    uploadMediaClassify s = some (ApiError.uploadFailed s) ∧
    searchByImageClassify s = some ApiError.searchFailed ∧
    fetchApiClassify t = none ∧
    uploadMediaClassify t = none ∧
    searchByImageClassify t = none := by
  unfold fetchApiClassify uploadMediaClassify searchByImageClassify
  rw [hs, ht]
  simp

/-- C5 witness: at status 401 the `fetchApi` path reports unauthorized while
the upload path reports its catch-all carrying 401, and status 200 succeeds
everywhere. -/
theorem c5_status_classification_witness :
    fetchApiClassify 401 = some ApiError.unauthorized ∧
    uploadMediaClassify 401 = some (ApiError.uploadFailed 401) ∧
    searchByImageClassify 401 = some ApiError.searchFailed ∧
    fetchApiClassify 200 = none ∧
    uploadMediaClassify 200 = none ∧
    searchByImageClassify 200 = none := by
  have h := c5_status_classification 401 200 (by decide) (by decide)
  simpa using h

/-- C1 counterexample: with the case branch rejecting and the person branch
succeeding with one hit, the stored ResultSet is empty — not the succeeding
branch's items — because `Promise.all` rejects and the catch stores `[]`. -/
theorem c1_counterexample :
    (handleSearch backendCaseFail formTextAlice).1 = [] ∧
    (handleSearch backendCaseFail formTextAlice).1 ≠
      [ResultItem.taggedPerson personAlice] := by
  refine ⟨rfl, by decide⟩

/-- C1 (amended): when either fanned-out branch of a non-blank TextQuery
fails, `handleSearch` does not throw but stores the empty ResultSet — the
succeeding branch's items are dropped along with the failed branch's —
while both autocomplete requests were issued; merged items are produced only
when every constituent call succeeds. -/
theorem c1_partial_failure_drops_all (b : Backend) (f : SearchForm)
    (ht : f.searchType = SearchType.text) (hq : jsTrim f.textQuery ≠ "")
    (hfail : (∃ e, b.cases f.textQuery = Except.error e) ∨
             (∃ e, b.persons f.textQuery = Except.error e)) :
    handleSearch b f =
      ([], [Request.autocompleteCases f.textQuery,
            Request.autocompletePersons f.textQuery]) := by
  obtain ⟨st, q, mi, la, lo, ra, fi⟩ := f
  simp only at ht hq ⊢
  subst ht
  simp only [handleSearch, if_neg hq]
  cases hc : b.cases q with
  | error e => cases hp : b.persons q <;> rfl
  | ok cs =>
      cases hp : b.persons q with
      | error e => rfl
      | ok ps =>
          exfalso
          rcases hfail with ⟨e, he⟩ | ⟨e, he⟩ <;> simp_all

/-- C1 witness: the amended statement at the concrete failing-case backend. -/
theorem c1_partial_failure_drops_all_witness :
    handleSearch backendCaseFail formTextAlice =
      ([], [Request.autocompleteCases "alice",
            Request.autocompletePersons "alice"]) :=
  c1_partial_failure_drops_all backendCaseFail formTextAlice rfl (by decide)
    (Or.inl ⟨ApiError.requestFailed 500, rfl⟩)

/-- C2 counterexample: a LocationQuery whose radius field is the non-numeric
string "abc" is not refused — `handleSearch` issues the location request
with radius `Number("abc") = NaN`, so at least one network call occurs. -/
theorem c2_counterexample :
    (handleSearch backendEmpty formLocationBadRadius).2 =
      [Request.searchLocation (JsNum.num 1) (JsNum.num 2) JsNum.nan] ∧
    (handleSearch backendEmpty formLocationBadRadius).2 ≠ [] := by
  refine ⟨by decide, by decide⟩

/-- C2 (amended): a TextQuery whose term is empty or whitespace-only is
refused — empty ResultSet, no network call — but a LocationQuery is never
validated: whatever its fields hold, the location request is issued with
`Number(lat)`, `Number(lon)` and `Number(radius)` (NaN when non-numeric,
0 when missing). -/
theorem c2_validation (b : Backend) (f g : SearchForm)
    (hf : f.searchType = SearchType.text) (hq : jsTrim f.textQuery = "")
    (hg : g.searchType = SearchType.location) :
    handleSearch b f = ([], []) ∧
    (handleSearch b g).2 =
      [Request.searchLocation (jsNumber g.lat) (jsNumber g.lon)
        (jsNumber g.radius)] := by
  constructor
  · obtain ⟨st, q, mi, la, lo, ra, fi⟩ := f
    simp only at hf hq
    subst hf
    simp only [handleSearch, hq, if_pos]
  · obtain ⟨st, q, mi, la, lo, ra, fi⟩ := g
    simp only at hg ⊢
    subst hg
    simp only [handleSearch]
    cases b.media (Request.searchLocation (jsNumber la) (jsNumber lo)
      (jsNumber ra)) <;> rfl

/-- C2 witness: the amended statement at the whitespace-only text form and
the non-numeric-radius location form. -/
theorem c2_validation_witness :
    handleSearch backendEmpty formTextBlank = ([], []) ∧
    (handleSearch backendEmpty formLocationBadRadius).2 =
      [Request.searchLocation (jsNumber "1") (jsNumber "2") (jsNumber "abc")] :=
  c2_validation backendEmpty formTextBlank formLocationBadRadius rfl
    (by decide) rfl

/-- C7: when both fanned-out branches of a non-blank TextQuery succeed, the
stored ResultSet is the case hits tagged with case provenance, in backend
order, followed by the person hits tagged with person provenance, in backend
order, with no deduplication — its length is the sum of the two branch
lengths even when names coincide. -/
theorem c7_text_fanout_merge (b : Backend) (f : SearchForm)
    (cs : List Case) (ps : List Person)
    (ht : f.searchType = SearchType.text) (hq : jsTrim f.textQuery ≠ "")
    (hc : b.cases f.textQuery = Except.ok cs)
    (hp : b.persons f.textQuery = Except.ok ps) :
    (handleSearch b f).1 =
      cs.map ResultItem.taggedCase ++ ps.map ResultItem.taggedPerson ∧
    (handleSearch b f).1.length = cs.length + ps.length := by
  obtain ⟨st, q, mi, la, lo, ra, fi⟩ := f
  simp only at ht hq hc hp
  subst ht
  simp [handleSearch, if_neg hq, hc, hp]

/-- C7 witness: a backend whose case branch and person branch each return one
hit with the same display name; the merged list holds both, cases first. -/
theorem c7_text_fanout_merge_witness :
    (handleSearch backendDup formTextAlice).1 =
      [ResultItem.taggedCase caseX, ResultItem.taggedPerson personX] ∧
    (handleSearch backendDup formTextAlice).1.length = 2 := by
  have h := c7_text_fanout_merge backendDup formTextAlice [caseX] [personX]
    rfl (by decide) rfl rfl
  simpa using h

/-- C10: every similarity search issued from the search UI carries the fixed
threshold 10, and every signature search issued from it carries the fixed
match type "combined" and threshold 0.7 — the UI never passes these
parameters, so the api-module defaults apply for every form state. -/
theorem c10_ui_fixed_parameters (b : Backend) (f g : SearchForm)
    (hf : f.searchType = SearchType.similar)
    (hg : g.searchType = SearchType.signature) :
    (handleSearch b f).2 =
      [Request.searchSimilar (jsNumber f.mediaId) (JsNum.num 10)] ∧
    (handleSearch b g).2 =
      [Request.searchSignature (jsNumber g.mediaId) "combined"
        (JsNum.num (7 / 10))] := by
  constructor
  · obtain ⟨st, q, mi, la, lo, ra, fi⟩ := f
    simp only at hf ⊢
    subst hf
    simp only [handleSearch]
    cases b.media (Request.searchSimilar (jsNumber mi) (JsNum.num 10)) <;> rfl
  · obtain ⟨st, q, mi, la, lo, ra, fi⟩ := g
    simp only at hg ⊢
    subst hg
    simp only [handleSearch]
    cases b.media (Request.searchSignature (jsNumber mi) "combined"
      (JsNum.num (7 / 10))) <;> rfl

/-- C10 witness: the concrete similarity form for media id 42 issues
`threshold=10` and the concrete signature form for media id 7 issues
`match_type=combined` with `threshold=0.7`. -/
theorem c10_ui_fixed_parameters_witness :
    (handleSearch backendEmpty formSimilar42).2 =
      [Request.searchSimilar (jsNumber "42") (JsNum.num 10)] ∧
    (handleSearch backendEmpty formSignature7).2 =
      [Request.searchSignature (jsNumber "7") "combined"
        (JsNum.num (7 / 10))] :=
  c10_ui_fixed_parameters backendEmpty formSimilar42 formSignature7 rfl rfl

/-- Helper: once `initPromise` is published and initialization has not yet
completed, further `initKeycloak` calls return the shared promise and leave
the module state unchanged. -/
theorem runInitCalls_pending (m : Nat) (s : InitModuleState)
    (h1 : s.initialized = false) (h2 : s.initPromiseSet = true) :
    runInitCalls m s = (List.replicate m InitReturn.sharedPromise, s) := by
  induction m with
  | zero => simp [runInitCalls]
  | succ k ih =>
      simp [runInitCalls, initKeycloak, h1, h2, ih, List.replicate_succ]

/-- C6: any number `n ≥ 1` of `initKeycloak` calls issued before the first
initialization completes performs exactly one `keycloak.init` round trip;
every caller receives the one shared promise (hence observes the same
resolved state); and once the initialization resolves with outcome `a`, a
further call returns that outcome immediately without any new round trip. -/
theorem c6_single_init_roundtrip (n : Nat) (hn : 1 ≤ n) (a : Bool) :
    (runInitCalls n freshInitState).2.roundTrips = 1 ∧
    (runInitCalls n freshInitState).1 =
      List.replicate n InitReturn.sharedPromise ∧
    initKeycloak (resolveInit a (runInitCalls n freshInitState).2) =
      (InitReturn.immediate a,
        resolveInit a (runInitCalls n freshInitState).2) := by
  obtain ⟨k, rfl⟩ : ∃ k, n = k + 1 :=
    ⟨n - 1, (Nat.succ_pred_eq_of_pos hn).symm⟩
  have hrun : runInitCalls (k + 1) freshInitState =
      (List.replicate (k + 1) InitReturn.sharedPromise,
        { initialized := false, initPromiseSet := true,
          kcAuthenticated := none, roundTrips := 1 }) := by
    have hstep := runInitCalls_pending k
      { initialized := false, initPromiseSet := true,
        kcAuthenticated := none, roundTrips := 1 } rfl rfl
    simp [runInitCalls, initKeycloak, freshInitState, hstep,
      List.replicate_succ]
  rw [hrun]
  exact ⟨rfl, rfl, rfl⟩

/-- C6 witness: two calls issued before resolution share one round trip and
one promise, and after resolving authenticated the next call is immediate. -/
theorem c6_single_init_roundtrip_witness :
    (runInitCalls 2 freshInitState).2.roundTrips = 1 ∧
    (runInitCalls 2 freshInitState).1 =
      List.replicate 2 InitReturn.sharedPromise ∧
    initKeycloak (resolveInit true (runInitCalls 2 freshInitState).2) =
      (InitReturn.immediate true,
        resolveInit true (runInitCalls 2 freshInitState).2) :=
  c6_single_init_roundtrip 2 (by decide) true
